import Mathlib

/-!
Shallow embedding of the `ai-concept-animator` front end: the request client
(`generateAnimationFromPrompt` in `services/geminiService.ts`) and the
generation lifecycle controller of `App.tsx` (`handleGenerate`,
`handleCancel`, `handleChatSubmit`, the chat-setup effect, the progress
interval and the completion settle timeout), modelled as a small-step
event system over an explicit state record.
-/

namespace ConceptAnimator

/-- Whitespace characters removed by JavaScript `String.prototype.trim`
(the subset relevant to this code base). -/
def isJsWhitespace (c : Char) : Bool :=
  c = ' ' || c = '\t' || c = '\n' || c = '\r'

/-- Model of JavaScript `s.trim()`: drop whitespace from both ends. -/
def jsTrim (s : String) : String :=
  String.mk (((s.data.dropWhile (fun c => isJsWhitespace c)).reverse.dropWhile
      (fun c => isJsWhitespace c)).reverse)

/-- Model of JavaScript `Math.round` on the nonnegative values that occur
here: round half up. -/
def jsRound (q : ℚ) : ℤ := ⌊q + 1/2⌋

/-- One progress tick of the interval started by `handleGenerate`:
`prev + Math.random() * 6`, rounded, capped at 92
(`Math.min(92, Math.round(prev + Math.random() * 6))`). -/
def tickNext (p : ℕ) (r : ℚ) : ℕ :=
  min 92 (jsRound ((p : ℚ) + r)).toNat

/-- `types.ts`: role of a chat message. -/
inductive Role where
  | user
  | model
deriving DecidableEq

/-- `types.ts`: `ChatMessage`. -/
structure ChatMessage where
  role : Role
  text : String
deriving DecidableEq

/-- `types.ts`: `AnimationGenerationResult`. -/
structure AnimationGenerationResult where
  manimCode : String
  explanationScript : String
  initialChatMessage : String
  videoUrl : Option String
deriving DecidableEq

/-- `types.ts`: `LoadingState`. -/
inductive LoadingState where
  | IDLE
  | GENERATING
  | RESPONDING_CHAT
  | DONE
  | ERROR
deriving DecidableEq

/-- Parsed shape of the `detail` field of a non-ok response body
(`errorBody.detail` in `generateAnimationFromPrompt`). -/
inductive ErrorDetail where
  | absent
  | str (s : String)
  | obj (message : Option String)
deriving DecidableEq

/-- The generic fallback message of `generateAnimationFromPrompt`. -/
def genericBackendMessage : String := "The backend failed to render the animation."

/-- Message selection of `generateAnimationFromPrompt` for a non-ok HTTP
response: `typeof errorBody.detail === 'string'` takes the string;
otherwise `errorBody.detail?.message` is used only when truthy (a present,
non-empty string); otherwise the generic fallback. -/
def backendFailureMessage (d : ErrorDetail) : String :=
  match d with
  | .str s => s
  | .obj (some m) => if m = "" then genericBackendMessage else m
  | .obj none => genericBackendMessage
  | .absent => genericBackendMessage

/-- Success body of the backend: `manim_code`, `download_url`, and a possible
`explanation` field (which the client never reads). -/
structure BackendSuccess where
  manim_code : String
  download_url : String
  explanation : Option String
deriving DecidableEq

/-- Outcome of the `fetch` performed by `generateAnimationFromPrompt`:
an ok response, a non-ok response with a parsed body, a connectivity
failure (`TypeError`), or an abort (`AbortError`). -/
inductive FetchOutcome where
  | success (r : BackendSuccess)
  | httpError (d : ErrorDetail)
  | networkFailure
  | abortSignal
deriving DecidableEq

/-- Base address of the rendering backend (`http://localhost:8000`). -/
def backendBaseAddress : String := "http://localhost:8000"

/-- The result record built by `generateAnimationFromPrompt` on success:
the returned Manim code, the constant placeholder explanation, the fixed
initial chat message, and the video URL prefixed with the backend base
address. -/
def buildSuccessResult (r : BackendSuccess) : AnimationGenerationResult :=
  { manimCode := r.manim_code
    explanationScript := "\x7b\x7d"
    initialChatMessage := "I\x27ve created this animation and code for you. Let me know if you have questions!"
    videoUrl := some (backendBaseAddress ++ r.download_url) }

/-- `services/geminiService.ts` `generateAnimationFromPrompt`, as a function
of the fetch outcome: ok responses produce the result record; non-ok
responses throw the selected failure message; a `TypeError` throws the
server-not-running hint; an `AbortError` throws the cancellation message. -/
def generateAnimationFromPrompt (prompt : String) (o : FetchOutcome) :
    Except String AnimationGenerationResult :=
  match prompt, o with
  | _, .success r => .ok (buildSuccessResult r)
  | _, .httpError d => .error (backendFailureMessage d)
  | _, .networkFailure => .error "Could not connect to the local animation server. Is it running?"
  | _, .abortSignal => .error "Request cancelled by user."

/-- Model of the `Chat` object created by the chat-setup effect
(`ai.chats.create`): it is determined by its system instruction. -/
structure ChatSessionModel where
  systemInstruction : String
deriving DecidableEq

/-- The system instruction the chat-setup effect embeds into the session,
built from the current animation data. -/
def chatSystemInstruction (a : AnimationGenerationResult) : String :=
  "You are a helpful assistant explaining a Manim animation about linear algebra. The user has just generated an animation with the following script:\n\n"
    ++ a.manimCode
    ++ "\n\nAnd the following explanation:\n\n"
    ++ a.explanationScript
    ++ "\n\nKeep your answers concise and focused on the user\x27s questions."

/-- The React state of `App.tsx` that the lifecycle claims are about,
together with the refs (`chatRef`, `progressTimerRef`, `abortControllerRef`)
and bookkeeping for in-flight requests.  `pending` holds the ids of
generation requests whose continuation has not yet run; `abortedReqs`
holds the ids whose `AbortController` was aborted; `currentReq` is the id
held by `abortControllerRef.current`; `nextReq` numbers fresh requests.
`settlePending` counts scheduled-but-unfired 600ms settle timeouts;
`chatPending` records an outstanding `chatRef.current.sendMessage` call. -/
structure AppState where
  promptText : String
  loadingState : LoadingState
  error : Option String
  animationData : Option AnimationGenerationResult
  videoUrl : Option String
  chatHistory : List ChatMessage
  chatSession : Option ChatSessionModel
  chatInput : String
  generationProgress : ℕ
  progressTimer : Bool
  settlePending : ℕ
  currentReq : Option ℕ
  nextReq : ℕ
  pending : List ℕ
  abortedReqs : List ℕ
  chatPending : Bool
deriving DecidableEq

/-- Initial React state of `App.tsx`. -/
def initState : AppState :=
  { promptText := "Visualize the dot product of two vectors, v=[2,1] and w=[1,3]"
    loadingState := .IDLE
    error := none
    animationData := none
    videoUrl := none
    chatHistory := []
    chatSession := none
    chatInput := ""
    generationProgress := 0
    progressTimer := false
    settlePending := 0
    currentReq := none
    nextReq := 0
    pending := []
    abortedReqs := []
    chatPending := false }

/-- Abort the controller currently held by `abortControllerRef`, if any
(the effect of `abortControllerRef.current.abort()`). -/
def abortCurrent (s : AppState) : List ℕ :=
  match s.currentReq with
  | some i => i :: s.abortedReqs
  | none => s.abortedReqs

/-- The synchronous prefix of `handleGenerate`, up to the `await` of
`generateAnimationFromPrompt`: the empty-prompt guard, the state resets,
the progress interval restart, and the abort-and-replace of the pending
request handle. -/
def handleGenerate (s : AppState) : AppState :=
  if jsTrim s.promptText = "" then
    { s with error := some "Please enter a prompt." }
  else
    { s with
      error := none
      loadingState := .GENERATING
      animationData := none
      videoUrl := none
      chatHistory := []
      chatSession := none
      generationProgress := 0
      progressTimer := true
      abortedReqs := abortCurrent s
      currentReq := some s.nextReq
      pending := s.nextReq :: s.pending
      nextReq := s.nextReq + 1 }

/-- The continuation of `handleGenerate` after `generateAnimationFromPrompt`
settles for request `id` with outcome `o`: the success branch (progress to
100, clear the interval, schedule the settle timeout, store the result,
derive the video URL, seed the transcript, state `DONE`) or the catch
branch (`setError(err.message || "An unknown error occurred.")`, state
`ERROR` — note the catch branch touches neither the interval nor the
progress value). -/
def handleGenerateCont (s : AppState) (id : ℕ) (o : FetchOutcome) : AppState :=
  match generateAnimationFromPrompt s.promptText o with
  | .ok result =>
    { s with
      generationProgress := 100
      progressTimer := false
      settlePending := s.settlePending + 1
      animationData := some result
      videoUrl := result.videoUrl
      chatHistory := [⟨Role.model, result.initialChatMessage⟩]
      loadingState := .DONE
      pending := s.pending.erase id }
  | .error m =>
    { s with
      error := some (if m = "" then "An unknown error occurred." else m)
      loadingState := .ERROR
      pending := s.pending.erase id }

/-- `handleCancel`: abort and drop the pending request handle, clear the
progress interval, reset progress to 0, state `IDLE`, informational
message. -/
def handleCancel (s : AppState) : AppState :=
  { s with
    abortedReqs := abortCurrent s
    currentReq := none
    progressTimer := false
    generationProgress := 0
    loadingState := .IDLE
    error := some "Generation cancelled." }

/-- The chat-setup effect: when animation data exists and no chat session
does, create the session if the API key is configured, otherwise set the
configuration error message. -/
def setupChatEffect (s : AppState) (hasKey : Bool) : AppState :=
  match s.animationData, s.chatSession with
  | some a, none =>
    if hasKey then
      { s with chatSession := some ⟨chatSystemInstruction a⟩ }
    else
      { s with error := some "VITE_GEMINI_API_KEY is not set. Please add it to your .env file for the chat feature." }
  | _, _ => s

/-- The synchronous prefix of `handleChatSubmit`: the guard
`!chatInput.trim() || !chatRef.current` returns without any change;
otherwise the user message is appended optimistically, the input cleared
and the state set to `RESPONDING_CHAT` while the send is outstanding. -/
def handleChatSubmit (s : AppState) : AppState :=
  if jsTrim s.chatInput = "" then s
  else
    match s.chatSession with
    | none => s
    | some _ =>
      { s with
        chatHistory := s.chatHistory ++ [⟨Role.user, s.chatInput⟩]
        chatInput := ""
        loadingState := .RESPONDING_CHAT
        chatPending := true }

/-- Success continuation of `handleChatSubmit`: append the model reply,
then the `finally` block sets state `DONE`. -/
def handleChatSubmitOk (s : AppState) (reply : String) : AppState :=
  { s with
    chatHistory := s.chatHistory ++ [⟨Role.model, reply⟩]
    loadingState := .DONE
    chatPending := false }

/-- Failure continuation of `handleChatSubmit`: `setError("Failed to get
chat response.")`, append the model-authored apology, then the `finally`
block sets state `DONE`. -/
def handleChatSubmitErr (s : AppState) : AppState :=
  { s with
    error := some "Failed to get chat response."
    chatHistory := s.chatHistory ++ [⟨Role.model, "Sorry, I encountered an error."⟩]
    loadingState := .DONE
    chatPending := false }

/-- Events of the single-threaded event loop: user edits, handler
invocations, timer firings and network settlements. -/
inductive Event where
  | setPrompt (v : String)
  | setChatInput (v : String)
  | startGenerate
  | tick (r : ℚ)
  | resolveReq (id : ℕ) (o : FetchOutcome)
  | cancel
  | settleFire
  | chatSetup (hasKey : Bool)
  | chatSubmit
  | chatResolveOk (reply : String)
  | chatResolveErr

/-- A fetch for request `id` can settle with outcome `o`: an ok response
requires the request not to have been aborted (an aborted fetch rejects),
and an `AbortError` requires it to have been aborted. -/
def resolveCompatible (s : AppState) (id : ℕ) (o : FetchOutcome) : Prop :=
  match o with
  | .success _ => id ∉ s.abortedReqs
  | .abortSignal => id ∈ s.abortedReqs
  | _ => True

instance (s : AppState) (id : ℕ) (o : FetchOutcome) :
    Decidable (resolveCompatible s id o) := by
  unfold resolveCompatible
  cases o <;> infer_instance

/-- One step of the event loop.  `none` means the event cannot occur in
state `s` (a tick without a scheduled interval, settling a request that is
not in flight, a settle timeout that was never scheduled, a chat reply
without an outstanding send). -/
def step (s : AppState) (e : Event) : Option AppState :=
  match e with
  | .setPrompt v => some { s with promptText := v }
  | .setChatInput v => some { s with chatInput := v }
  | .startGenerate => some (handleGenerate s)
  | .tick r =>
    if s.progressTimer = true ∧ 0 ≤ r ∧ r < 6 then
      some { s with generationProgress := tickNext s.generationProgress r }
    else none
  | .resolveReq id o =>
    if id ∈ s.pending ∧ resolveCompatible s id o then
      some (handleGenerateCont s id o)
    else none
  | .cancel => some (handleCancel s)
  | .settleFire =>
    if 0 < s.settlePending then
      some { s with generationProgress := 0, settlePending := s.settlePending - 1 }
    else none
  | .chatSetup hasKey => some (setupChatEffect s hasKey)
  | .chatSubmit => some (handleChatSubmit s)
  | .chatResolveOk reply =>
    if s.chatPending = true then some (handleChatSubmitOk s reply) else none
  | .chatResolveErr =>
    if s.chatPending = true then some (handleChatSubmitErr s) else none

/-- Run a list of events from a state, failing if any event is disabled. -/
def runFrom : AppState → List Event → Option AppState
  | s, [] => some s
  | s, e :: es =>
    match step s e with
    | some s₁ => runFrom s₁ es
    | none => none

/-- A state is reachable when some event sequence produces it from the
initial state. -/
def Reachable (s : AppState) : Prop :=
  ∃ es : List Event, runFrom initState es = some s

/-! ### Arithmetic facts about the progress tick -/

theorem tickNext_le_92 (p : ℕ) (r : ℚ) : tickNext p r ≤ 92 :=
  Nat.min_le_left _ _

theorem tickNext_le_100 (p : ℕ) (r : ℚ) : tickNext p r ≤ 100 :=
  le_trans (tickNext_le_92 p r) (by norm_num)

theorem tickNext_mono (p : ℕ) (r : ℚ) (hp : p ≤ 92) (hr : 0 ≤ r) :
    p ≤ tickNext p r := by
  unfold tickNext jsRound
  refine le_min hp ?_
  have h1 : (p : ℤ) ≤ ⌊(p : ℚ) + r + 1/2⌋ := by
    rw [Int.le_floor]
    push_cast
    linarith
  omega

theorem tickNext_le_add (p : ℕ) (r : ℚ) (hr : r < 6) : tickNext p r ≤ p + 6 := by
  unfold tickNext jsRound
  have h1 : ⌊(p : ℚ) + r + 1/2⌋ < (p : ℤ) + 7 := by
    rw [Int.floor_lt]
    push_cast
    linarith
  have h2 := Nat.min_le_right 92 (⌊(p : ℚ) + r + 1/2⌋).toNat
  omega

/-! ### Invariants of the event system -/

/-- Progress is in `[0,100]`, and while the interval is scheduled it is in
`[0,92]`. -/
def ProgressInv (s : AppState) : Prop :=
  s.generationProgress ≤ 100 ∧ (s.progressTimer = true → s.generationProgress ≤ 92)

/-- Every in-flight request that has not been aborted is the one owned by
`abortControllerRef` (there is at most one authoritative request). -/
def ReqInv (s : AppState) : Prop :=
  ∀ id : ℕ, id ∈ s.pending → id ∉ s.abortedReqs → s.currentReq = some id

/-- Quiescence after a cancellation: progress is 0, no interval is
scheduled, and every still-in-flight request has been aborted. -/
def CancelQuiescent (s : AppState) : Prop :=
  s.generationProgress = 0 ∧ s.progressTimer = false ∧
    ∀ id : ℕ, id ∈ s.pending → id ∈ s.abortedReqs

theorem mem_abortCurrent_of_mem {s : AppState} {i : ℕ}
    (h : i ∈ s.abortedReqs) : i ∈ abortCurrent s := by
  unfold abortCurrent
  cases s.currentReq <;> simp [h]

theorem current_mem_abortCurrent {s : AppState} {i : ℕ}
    (h : s.currentReq = some i) : i ∈ abortCurrent s := by
  unfold abortCurrent
  rw [h]
  simp

theorem step_progressInv {s s' : AppState} {e : Event}
    (hI : ProgressInv s) (h : step s e = some s') : ProgressInv s' := by
  obtain ⟨h100, h92⟩ := hI
  cases e with
  | setPrompt v =>
    injection h with h
    subst h
    exact ⟨h100, h92⟩
  | setChatInput v =>
    injection h with h
    subst h
    exact ⟨h100, h92⟩
  | startGenerate =>
    injection h with h
    subst h
    unfold handleGenerate
    split
    · exact ⟨h100, h92⟩
    · exact ⟨by norm_num, fun _ => by norm_num⟩
  | tick r =>
    simp only [step] at h
    split at h
    · injection h with h
      subst h
      exact ⟨tickNext_le_100 _ _, fun _ => tickNext_le_92 _ _⟩
    · exact Option.noConfusion h
  | resolveReq id o =>
    simp only [step] at h
    split at h
    · injection h with h
      subst h
      unfold handleGenerateCont
      split
      · exact ⟨by norm_num, fun hc => by simp at hc⟩
      · exact ⟨h100, h92⟩
    · exact Option.noConfusion h
  | cancel =>
    injection h with h
    subst h
    exact ⟨by simp [handleCancel], fun _ => by simp [handleCancel]⟩
  | settleFire =>
    simp only [step] at h
    split at h
    · injection h with h
      subst h
      exact ⟨by norm_num, fun _ => by norm_num⟩
    · exact Option.noConfusion h
  | chatSetup b =>
    injection h with h
    subst h
    unfold setupChatEffect
    split
    · split
      · exact ⟨h100, h92⟩
      · exact ⟨h100, h92⟩
    · exact ⟨h100, h92⟩
  | chatSubmit =>
    injection h with h
    subst h
    unfold handleChatSubmit
    split
    · exact ⟨h100, h92⟩
    · split
      · exact ⟨h100, h92⟩
      · exact ⟨h100, h92⟩
  | chatResolveOk t =>
    simp only [step] at h
    split at h
    · injection h with h
      subst h
      exact ⟨h100, h92⟩
    · exact Option.noConfusion h
  | chatResolveErr =>
    simp only [step] at h
    split at h
    · injection h with h
      subst h
      exact ⟨h100, h92⟩
    · exact Option.noConfusion h

theorem step_reqInv {s s' : AppState} {e : Event}
    (hI : ReqInv s) (h : step s e = some s') : ReqInv s' := by
  cases e with
  | setPrompt v =>
    injection h with h
    subst h
    exact hI
  | setChatInput v =>
    injection h with h
    subst h
    exact hI
  | startGenerate =>
    injection h with h
    subst h
    unfold handleGenerate
    split
    · exact hI
    · intro id hmem hnab
      rcases List.mem_cons.mp hmem with hid | hid
      · simp [hid]
      · exfalso
        have hnab' : id ∉ s.abortedReqs := fun hin =>
          hnab (mem_abortCurrent_of_mem hin)
        exact hnab (current_mem_abortCurrent (hI id hid hnab'))
  | tick r =>
    simp only [step] at h
    split at h
    · injection h with h
      subst h
      exact hI
    · exact Option.noConfusion h
  | resolveReq id o =>
    simp only [step] at h
    split at h
    · injection h with h
      subst h
      unfold handleGenerateCont
      split
      · intro j hj hnab
        exact hI j (List.mem_of_mem_erase hj) hnab
      · intro j hj hnab
        exact hI j (List.mem_of_mem_erase hj) hnab
    · exact Option.noConfusion h
  | cancel =>
    injection h with h
    subst h
    intro id hmem hnab
    exfalso
    have hnab' : id ∉ s.abortedReqs := fun hin =>
      hnab (mem_abortCurrent_of_mem hin)
    exact hnab (current_mem_abortCurrent (hI id hmem hnab'))
  | settleFire =>
    simp only [step] at h
    split at h
    · injection h with h
      subst h
      exact hI
    · exact Option.noConfusion h
  | chatSetup b =>
    injection h with h
    subst h
    unfold setupChatEffect
    split
    · split
      · exact hI
      · exact hI
    · exact hI
  | chatSubmit =>
    injection h with h
    subst h
    unfold handleChatSubmit
    split
    · exact hI
    · split
      · exact hI
      · exact hI
  | chatResolveOk t =>
    simp only [step] at h
    split at h
    · injection h with h
      subst h
      exact hI
    · exact Option.noConfusion h
  | chatResolveErr =>
    simp only [step] at h
    split at h
    · injection h with h
      subst h
      exact hI
    · exact Option.noConfusion h

theorem step_cancelQuiescent {s s' : AppState} {e : Event}
    (hq : CancelQuiescent s) (h : step s e = some s')
    (hne : e ≠ Event.startGenerate) : CancelQuiescent s' := by
  obtain ⟨hp, ht, hab⟩ := hq
  cases e with
  | setPrompt v =>
    injection h with h
    subst h
    exact ⟨hp, ht, hab⟩
  | setChatInput v =>
    injection h with h
    subst h
    exact ⟨hp, ht, hab⟩
  | startGenerate => exact absurd rfl hne
  | tick r =>
    simp only [step] at h
    split at h
    · next hg => rw [ht] at hg; simp at hg
    · exact Option.noConfusion h
  | resolveReq id o =>
    simp only [step] at h
    split at h
    · next hg =>
      injection h with h
      subst h
      cases o with
      | success b =>
        exact absurd (hab id hg.1) hg.2
      | httpError d =>
        exact ⟨hp, ht, fun j hj => hab j (List.mem_of_mem_erase hj)⟩
      | networkFailure =>
        exact ⟨hp, ht, fun j hj => hab j (List.mem_of_mem_erase hj)⟩
      | abortSignal =>
        exact ⟨hp, ht, fun j hj => hab j (List.mem_of_mem_erase hj)⟩
    · exact Option.noConfusion h
  | cancel =>
    injection h with h
    subst h
    exact ⟨rfl, rfl, fun j hj => mem_abortCurrent_of_mem (hab j hj)⟩
  | settleFire =>
    simp only [step] at h
    split at h
    · injection h with h
      subst h
      exact ⟨rfl, ht, hab⟩
    · exact Option.noConfusion h
  | chatSetup b =>
    injection h with h
    subst h
    unfold setupChatEffect
    split
    · split
      · exact ⟨hp, ht, hab⟩
      · exact ⟨hp, ht, hab⟩
    · exact ⟨hp, ht, hab⟩
  | chatSubmit =>
    injection h with h
    subst h
    unfold handleChatSubmit
    split
    · exact ⟨hp, ht, hab⟩
    · split
      · exact ⟨hp, ht, hab⟩
      · exact ⟨hp, ht, hab⟩
  | chatResolveOk t =>
    simp only [step] at h
    split at h
    · injection h with h
      subst h
      exact ⟨hp, ht, hab⟩
    · exact Option.noConfusion h
  | chatResolveErr =>
    simp only [step] at h
    split at h
    · injection h with h
      subst h
      exact ⟨hp, ht, hab⟩
    · exact Option.noConfusion h

theorem handleCancel_quiescent (s : AppState) (hreq : ReqInv s) :
    CancelQuiescent (handleCancel s) := by
  refine ⟨rfl, rfl, fun id hmem => ?_⟩
  by_cases hin : id ∈ s.abortedReqs
  · exact mem_abortCurrent_of_mem hin
  · exact current_mem_abortCurrent (hreq id hmem hin)

theorem runFrom_inv (I : AppState → Prop)
    (hstep : ∀ s e s', I s → step s e = some s' → I s') :
    ∀ es s s', I s → runFrom s es = some s' → I s' := by
  intro es
  induction es with
  | nil =>
    intro s s' hI h
    simp only [runFrom, Option.some.injEq] at h
    exact h ▸ hI
  | cons e es ih =>
    intro s s' hI h
    simp only [runFrom] at h
    cases hse : step s e with
    | none => rw [hse] at h; exact Option.noConfusion h
    | some s₁ => rw [hse] at h; exact ih s₁ s' (hstep s e s₁ hI hse) h

theorem reachable_progressInv {s : AppState} (h : Reachable s) : ProgressInv s := by
  obtain ⟨es, hrun⟩ := h
  refine runFrom_inv ProgressInv (fun a e a' hI hs => step_progressInv hI hs)
    es initState s ⟨by simp [initState], fun _ => by simp [initState]⟩ hrun

theorem reachable_reqInv {s : AppState} (h : Reachable s) : ReqInv s := by
  obtain ⟨es, hrun⟩ := h
  refine runFrom_inv ReqInv (fun a e a' hI hs => step_reqInv hI hs)
    es initState s (fun id hmem => absurd hmem (by simp [initState])) hrun

/-! ### Concrete states used by the claim witnesses -/

/-- The state after typing the prompt `"p"` and clicking Generate:
request 0 is in flight, the progress interval is scheduled. -/
def genReadyState : AppState := handleGenerate { initState with promptText := "p" }

/-- The state after request 0 rejects with an HTTP error whose body is
`\x7bdetail: "render failed"\x7d` while `genReadyState` is generating. -/
def c3state : AppState :=
  handleGenerateCont genReadyState 0 (FetchOutcome.httpError (ErrorDetail.str "render failed"))

/-! ### Claim C1 -/

/-- Claim C1 (code bug evidence): the claim says a superseded request's late
rejection must not mutate controller state, but `handleGenerate` has no
supersession guard.  After a second Generate aborts the first request
(state `GENERATING`, error banner clear), the first request's rejection
still runs the shared catch block: the lifecycle state becomes `ERROR` and
the error message becomes `"Request cancelled by user."` while the second
request is still in flight. -/
theorem claim1_superseded_rejection_mutates_state :
    (runFrom initState [Event.setPrompt "p", Event.startGenerate,
        Event.startGenerate]).map AppState.loadingState = some LoadingState.GENERATING ∧
    (runFrom initState [Event.setPrompt "p", Event.startGenerate,
        Event.startGenerate]).map AppState.error = some none ∧
    (runFrom initState [Event.setPrompt "p", Event.startGenerate, Event.startGenerate,
        Event.resolveReq 0 FetchOutcome.abortSignal]).map AppState.loadingState
      = some LoadingState.ERROR ∧
    (runFrom initState [Event.setPrompt "p", Event.startGenerate, Event.startGenerate,
        Event.resolveReq 0 FetchOutcome.abortSignal]).map AppState.error
      = some (some "Request cancelled by user.") :=
  ⟨by decide, by decide, by decide, by decide⟩

/-! ### Claim C2 -/

/-- Claim C2 (counterexample): after `handleCancel` on a pending generation
the state is `IDLE`, yet the cancelled request's rejection subsequently
sets the lifecycle state to `ERROR` — refuting the claim that the
lifecycle state never changes to Error as a consequence of the cancelled
request's rejection. -/
theorem claim2_error_after_cancel_counterexample :
    (runFrom initState [Event.setPrompt "p", Event.startGenerate, Event.cancel]).map
        AppState.loadingState = some LoadingState.IDLE ∧
    (runFrom initState [Event.setPrompt "p", Event.startGenerate, Event.cancel]).map
        AppState.error = some (some "Generation cancelled.") ∧
    (runFrom initState [Event.setPrompt "p", Event.startGenerate, Event.cancel]).map
        AppState.generationProgress = some 0 ∧
    (runFrom initState [Event.setPrompt "p", Event.startGenerate, Event.cancel,
        Event.resolveReq 0 FetchOutcome.abortSignal]).map AppState.loadingState
      = some LoadingState.ERROR :=
  ⟨by decide, by decide, by decide, by decide⟩

/-- Claim C2 (amended): `handleCancel` yields lifecycle state `IDLE`, the
non-null informational message `"Generation cancelled."` and progress 0;
from any reachable state, cancellation leaves the system quiescent (no
interval scheduled, every in-flight request aborted) and quiescence — in
particular progress staying 0 — is preserved by every subsequent event
except a fresh Generate; however the cancelled request's rejection does
subsequently set the lifecycle state to `ERROR` with the distinguished
message `"Request cancelled by user."`. -/
theorem claim2_cancel_amended (s s' : AppState) (e : Event) (id : ℕ) :
    ((handleCancel s).loadingState = LoadingState.IDLE ∧
      (handleCancel s).error = some "Generation cancelled." ∧
      (handleCancel s).generationProgress = 0) ∧
    (Reachable s → CancelQuiescent (handleCancel s)) ∧
    (CancelQuiescent s → step s e = some s' → e ≠ Event.startGenerate →
      CancelQuiescent s') ∧
    (step s (Event.resolveReq id FetchOutcome.abortSignal) = some s' →
      s'.loadingState = LoadingState.ERROR ∧
      s'.error = some "Request cancelled by user.") := by
  refine ⟨⟨rfl, rfl, rfl⟩, ?_, ?_, ?_⟩
  · intro hr
    exact handleCancel_quiescent s (reachable_reqInv hr)
  · intro hq hs hne
    exact step_cancelQuiescent hq hs hne
  · intro hs
    simp only [step] at hs
    split at hs
    · injection hs with hs
      subst hs
      exact ⟨rfl, rfl⟩
    · exact Option.noConfusion hs

/-- Witness for claim C2: concretely, cancelling the in-flight request of
`genReadyState` is quiescent, stays quiescent under a further event, and
the aborted request's rejection produces state `ERROR`. -/
theorem claim2_cancel_amended_witness :
    CancelQuiescent (handleCancel genReadyState) ∧
    CancelQuiescent (handleCancel (handleCancel genReadyState)) ∧
    (handleGenerateCont (handleCancel genReadyState) 0 FetchOutcome.abortSignal).loadingState
      = LoadingState.ERROR := by
  have h1 := (claim2_cancel_amended genReadyState (handleCancel genReadyState) Event.cancel 0).2.1
    ⟨[Event.setPrompt "p", Event.startGenerate], rfl⟩
  have h2 := (claim2_cancel_amended (handleCancel genReadyState)
      (handleCancel (handleCancel genReadyState)) Event.cancel 0).2.2.1 h1 rfl
      (fun hc => Event.noConfusion hc)
  have h3 := (claim2_cancel_amended (handleCancel genReadyState)
      (handleGenerateCont (handleCancel genReadyState) 0 FetchOutcome.abortSignal)
      Event.cancel 0).2.2.2 (by decide)
  exact ⟨h1, h2, h3.1⟩

/-! ### Claim C3 -/

/-- Claim C3 (code bug evidence): on a failing generation the lifecycle
does transition to `ERROR` with the user-facing message stored, but the
catch block never clears the progress interval: in the resulting state the
recurring tick timer is still scheduled and a further tick changes the
progress from 0 to 3 — the Progress Estimator is not stopped, contrary to
the claim and to the spec's rule that `stop` cancels the recurring tick. -/
theorem claim3_error_leaves_progress_timer_running :
    runFrom initState [Event.setPrompt "p", Event.startGenerate,
        Event.resolveReq 0 (FetchOutcome.httpError (ErrorDetail.str "render failed"))]
      = some c3state ∧
    c3state.loadingState = LoadingState.ERROR ∧
    c3state.error = some "render failed" ∧
    c3state.progressTimer = true ∧
    c3state.generationProgress = 0 ∧
    step c3state (Event.tick 3) = some { c3state with generationProgress := 3 } := by
  refine ⟨by decide, by decide, by decide, by decide, by decide, ?_⟩
  have htick : tickNext 0 3 = 3 := by
    have h1 : jsRound (((0 : ℕ) : ℚ) + 3) = 3 := by
      unfold jsRound
      rw [Int.floor_eq_iff]
      push_cast
      norm_num
    unfold tickNext
    rw [h1]
    decide
  have hprog : c3state.generationProgress = 0 := by decide
  simp only [step]
  rw [if_pos (⟨by decide, by norm_num, by norm_num⟩ :
    c3state.progressTimer = true ∧ (0 : ℚ) ≤ 3 ∧ (3 : ℚ) < 6)]
  rw [hprog, htick]

/-! ### Claim C4 -/

/-- Claim C4 (counterexample): a chat send failure does modify the error
state that drives the dismissible global banner — before the failure the
error is `none`, afterwards it is `some "Failed to get chat response."`
(the lifecycle does return to `DONE`). -/
theorem claim4_chat_failure_sets_banner_counterexample :
    (runFrom initState [Event.setPrompt "p", Event.startGenerate,
        Event.resolveReq 0 (FetchOutcome.success ⟨"code", "/v.mp4", none⟩),
        Event.chatSetup true, Event.setChatInput "q", Event.chatSubmit]).map
        AppState.error = some none ∧
    (runFrom initState [Event.setPrompt "p", Event.startGenerate,
        Event.resolveReq 0 (FetchOutcome.success ⟨"code", "/v.mp4", none⟩),
        Event.chatSetup true, Event.setChatInput "q", Event.chatSubmit,
        Event.chatResolveErr]).map AppState.error
      = some (some "Failed to get chat response.") ∧
    (runFrom initState [Event.setPrompt "p", Event.startGenerate,
        Event.resolveReq 0 (FetchOutcome.success ⟨"code", "/v.mp4", none⟩),
        Event.chatSetup true, Event.setChatInput "q", Event.chatSubmit,
        Event.chatResolveErr]).map AppState.loadingState = some LoadingState.DONE :=
  ⟨by decide, by decide, by decide⟩

/-- Claim C4 (amended): a chat send failure appends exactly one
model-authored fallback message and returns the lifecycle state to `DONE`
(never `ERROR`), but it also sets the global error message (the one
rendered as the dismissible banner) to `"Failed to get chat response."`. -/
theorem claim4_chat_failure_amended (s s' : AppState) :
    s.chatPending = true → step s Event.chatResolveErr = some s' →
      s'.chatHistory = s.chatHistory ++ [⟨Role.model, "Sorry, I encountered an error."⟩] ∧
      s'.loadingState = LoadingState.DONE ∧
      s'.error = some "Failed to get chat response." := by
  intro hc hs
  simp only [step] at hs
  rw [if_pos hc] at hs
  injection hs with hs
  subst hs
  exact ⟨rfl, rfl, rfl⟩

/-- Witness for claim C4 at a concrete state with an outstanding chat
send. -/
theorem claim4_chat_failure_amended_witness :
    (handleChatSubmitErr { initState with chatPending := true }).chatHistory
      = [⟨Role.model, "Sorry, I encountered an error."⟩] ∧
    (handleChatSubmitErr { initState with chatPending := true }).loadingState
      = LoadingState.DONE ∧
    (handleChatSubmitErr { initState with chatPending := true }).error
      = some "Failed to get chat response." := by
  have h := claim4_chat_failure_amended { initState with chatPending := true }
    (handleChatSubmitErr { initState with chatPending := true }) rfl rfl
  simpa [initState] using h

/-! ### Claim C5 -/

/-- Claim C5: progress is a natural number that never exceeds 100 in any
reachable state; while the interval of one request is scheduled, each tick
is monotonically non-decreasing, never exceeds 92, and adds at most 6
(the rounded `Math.random() * 6` draw); on true completion progress is
set to exactly 100, the recurring tick interval is cancelled, and one
settle timeout is scheduled whose firing resets progress to 0. -/
theorem claim5_progress_invariants (s s' : AppState) (r : ℚ) (id : ℕ) (b : BackendSuccess) :
    (Reachable s → s.generationProgress ≤ 100) ∧
    (Reachable s → step s (Event.tick r) = some s' →
      s.generationProgress ≤ s'.generationProgress ∧
      s'.generationProgress ≤ 92 ∧
      s'.generationProgress ≤ s.generationProgress + 6) ∧
    (step s (Event.resolveReq id (FetchOutcome.success b)) = some s' →
      s'.generationProgress = 100 ∧ s'.progressTimer = false ∧
      s'.settlePending = s.settlePending + 1) ∧
    (step s Event.settleFire = some s' → s'.generationProgress = 0) := by
  refine ⟨fun hr => (reachable_progressInv hr).1, ?_, ?_, ?_⟩
  · intro hr hs
    simp only [step] at hs
    split at hs
    · next hg =>
      injection hs with hs
      subst hs
      exact ⟨tickNext_mono _ _ ((reachable_progressInv hr).2 hg.1) hg.2.1,
        tickNext_le_92 _ _, tickNext_le_add _ _ hg.2.2⟩
    · exact Option.noConfusion hs
  · intro hs
    simp only [step] at hs
    split at hs
    · injection hs with hs
      subst hs
      exact ⟨rfl, rfl, rfl⟩
    · exact Option.noConfusion hs
  · intro hs
    simp only [step] at hs
    split at hs
    · injection hs with hs
      subst hs
      exact rfl
    · exact Option.noConfusion hs

/-- Witness for claim C5: the reachable state `genReadyState` with a
concrete tick of amount 3 and a concrete successful completion. -/
theorem claim5_progress_invariants_witness :
    genReadyState.generationProgress ≤ 100 ∧
    (genReadyState.generationProgress ≤ tickNext genReadyState.generationProgress 3 ∧
      tickNext genReadyState.generationProgress 3 ≤ 92) ∧
    (handleGenerateCont genReadyState 0
        (FetchOutcome.success ⟨"c", "/v", none⟩)).generationProgress = 100 := by
  have hreach : Reachable genReadyState := ⟨[Event.setPrompt "p", Event.startGenerate], rfl⟩
  have hstep : step genReadyState (Event.tick 3)
      = some { genReadyState with
          generationProgress := tickNext genReadyState.generationProgress 3 } := by
    simp only [step]
    rw [if_pos (⟨by decide, by norm_num, by norm_num⟩ :
      genReadyState.progressTimer = true ∧ (0 : ℚ) ≤ 3 ∧ (3 : ℚ) < 6)]
  have h1 := (claim5_progress_invariants genReadyState genReadyState 3 0 ⟨"c", "/v", none⟩).1 hreach
  have h2 := (claim5_progress_invariants genReadyState
      { genReadyState with generationProgress := tickNext genReadyState.generationProgress 3 }
      3 0 ⟨"c", "/v", none⟩).2.1 hreach hstep
  have h3 := (claim5_progress_invariants genReadyState
      (handleGenerateCont genReadyState 0 (FetchOutcome.success ⟨"c", "/v", none⟩))
      3 0 ⟨"c", "/v", none⟩).2.2.1 rfl
  exact ⟨h1, ⟨h2.1, h2.2.1⟩, h3.1⟩

/-! ### Claim C6 -/

/-- Claim C6: every successful generation response yields a state whose
video URL is the backend base address concatenated with the relative
`download_url`, whose lifecycle state is `DONE`, whose stored result is
the constructed record, and whose chat transcript is exactly one message
authored by the model (the result's fixed initial chat message). -/
theorem claim6_success_result (s s' : AppState) (id : ℕ) (b : BackendSuccess) :
    step s (Event.resolveReq id (FetchOutcome.success b)) = some s' →
      s'.videoUrl = some (backendBaseAddress ++ b.download_url) ∧
      s'.loadingState = LoadingState.DONE ∧
      s'.animationData = some (buildSuccessResult b) ∧
      s'.chatHistory = [⟨Role.model, (buildSuccessResult b).initialChatMessage⟩] := by
  intro hs
  simp only [step] at hs
  split at hs
  · injection hs with hs
    subst hs
    exact ⟨rfl, rfl, rfl, rfl⟩
  · exact Option.noConfusion hs

/-- Witness for claim C6: the spec's example, `download_url` equal to
`"/files/x.mp4"`. -/
theorem claim6_success_result_witness :
    (handleGenerateCont genReadyState 0
        (FetchOutcome.success ⟨"code", "/files/x.mp4", none⟩)).videoUrl
      = some "http://localhost:8000/files/x.mp4" ∧
    (handleGenerateCont genReadyState 0
        (FetchOutcome.success ⟨"code", "/files/x.mp4", none⟩)).loadingState
      = LoadingState.DONE ∧
    (handleGenerateCont genReadyState 0
        (FetchOutcome.success ⟨"code", "/files/x.mp4", none⟩)).chatHistory.length = 1 := by
  have h := claim6_success_result genReadyState
    (handleGenerateCont genReadyState 0 (FetchOutcome.success ⟨"code", "/files/x.mp4", none⟩))
    0 ⟨"code", "/files/x.mp4", none⟩ rfl
  refine ⟨by rw [h.1]; decide, h.2.1, by rw [h.2.2.2]; rfl⟩

/-! ### Claim C7 -/

/-- Claim C7 (counterexample): a body whose `detail` is an object carrying
the message field `""` does not produce the carried message; the JS
truthiness test `errorBody.detail?.message` rejects the empty string and
the generic fallback is used instead. -/
theorem claim7_empty_detail_message_counterexample :
    backendFailureMessage (ErrorDetail.obj (some "")) ≠ "" ∧
    generateAnimationFromPrompt "draw a circle"
        (FetchOutcome.httpError (ErrorDetail.obj (some "")))
      = Except.error genericBackendMessage ∧
    genericBackendMessage = "The backend failed to render the animation." :=
  ⟨by decide, rfl, rfl⟩

/-- Claim C7 (amended): for a non-success HTTP response the failure
message is the body's `detail` field when `detail` is a string; otherwise
`detail.message` when `detail` is an object whose `message` field is a
non-empty string; otherwise (absent `detail`, absent `message`, or an
empty — falsy — `message`) the generic fallback; and an HTTP 500 body
with `detail` equal to `"render failed"` yields lifecycle state `ERROR`
with error message exactly `"render failed"`. -/
theorem claim7_failure_message_amended (dstr m : String) (s s' : AppState) (id : ℕ) :
    backendFailureMessage (ErrorDetail.str dstr) = dstr ∧
    (m ≠ "" → backendFailureMessage (ErrorDetail.obj (some m)) = m) ∧
    backendFailureMessage (ErrorDetail.obj (some "")) = genericBackendMessage ∧
    backendFailureMessage (ErrorDetail.obj none) = genericBackendMessage ∧
    backendFailureMessage ErrorDetail.absent = genericBackendMessage ∧
    (step s (Event.resolveReq id (FetchOutcome.httpError (ErrorDetail.str "render failed")))
        = some s' → s'.error = some "render failed" ∧ s'.loadingState = LoadingState.ERROR) := by
  refine ⟨rfl, ?_, by decide, rfl, rfl, ?_⟩
  · intro hm
    simp [backendFailureMessage, hm]
  · intro hs
    simp only [step] at hs
    split at hs
    · injection hs with hs
      subst hs
      exact ⟨rfl, rfl⟩
    · exact Option.noConfusion hs

/-- Witness for claim C7: the non-empty message `"render failed"` and the
spec's HTTP 500 example. -/
theorem claim7_failure_message_amended_witness :
    backendFailureMessage (ErrorDetail.obj (some "render failed")) = "render failed" ∧
    (handleGenerateCont genReadyState 0
        (FetchOutcome.httpError (ErrorDetail.str "render failed"))).error
      = some "render failed" := by
  have h := claim7_failure_message_amended "d" "render failed" genReadyState
    (handleGenerateCont genReadyState 0 (FetchOutcome.httpError (ErrorDetail.str "render failed"))) 0
  exact ⟨h.2.1 (by decide), (h.2.2.2.2.2 rfl).1⟩

/-! ### Claim C8 -/

/-- Claim C8 (counterexample): a backend response that does supply an
explanation field (`"EXPL"`) still yields a result whose
`explanationScript` is the fixed placeholder, not the supplied value —
the client never reads the response's explanation. -/
theorem claim8_explanation_ignored_counterexample :
    (buildSuccessResult ⟨"code", "/files/x.mp4", some "EXPL"⟩).explanationScript ≠ "EXPL" ∧
    generateAnimationFromPrompt "draw a circle"
        (FetchOutcome.success ⟨"code", "/files/x.mp4", some "EXPL"⟩)
      = Except.ok (buildSuccessResult ⟨"code", "/files/x.mp4", some "EXPL"⟩) ∧
    (buildSuccessResult ⟨"code", "/files/x.mp4", some "EXPL"⟩).explanationScript = "\x7b\x7d" :=
  ⟨by decide, rfl, rfl⟩

/-- Claim C8 (amended): for every successful response the constructed
result's `explanationScript` is always the empty structured placeholder,
regardless of whether the backend supplied an explanation field. -/
theorem claim8_explanation_amended (p : String) (b : BackendSuccess) :
    generateAnimationFromPrompt p (FetchOutcome.success b) = Except.ok (buildSuccessResult b) ∧
    (buildSuccessResult b).explanationScript = "\x7b\x7d" :=
  ⟨rfl, rfl⟩

/-! ### Claim C9 -/

/-- Claim C9: for every state whose trimmed prompt is empty,
`handleGenerate` only sets the error message `"Please enter a prompt."`
and returns — the lifecycle state, stored result, video reference, chat
transcript, chat session, progress and the request bookkeeping (no new
network request) are all unchanged. -/
theorem claim9_empty_prompt_frame (s : AppState) (h : jsTrim s.promptText = "") :
    handleGenerate s = { s with error := some "Please enter a prompt." } ∧
    (handleGenerate s).loadingState = s.loadingState ∧
    (handleGenerate s).animationData = s.animationData ∧
    (handleGenerate s).videoUrl = s.videoUrl ∧
    (handleGenerate s).chatHistory = s.chatHistory ∧
    (handleGenerate s).chatSession = s.chatSession ∧
    (handleGenerate s).generationProgress = s.generationProgress ∧
    (handleGenerate s).pending = s.pending ∧
    (handleGenerate s).nextReq = s.nextReq ∧
    (handleGenerate s).error = some "Please enter a prompt." := by
  have he : handleGenerate s = { s with error := some "Please enter a prompt." } := by
    unfold handleGenerate
    rw [if_pos h]
  rw [he]
  exact ⟨rfl, rfl, rfl, rfl, rfl, rfl, rfl, rfl, rfl, rfl⟩

/-- Witness for claim C9: a whitespace-only prompt. -/
theorem claim9_empty_prompt_frame_witness :
    handleGenerate { initState with promptText := "   " }
      = { { initState with promptText := "   " } with error := some "Please enter a prompt." } :=
  (claim9_empty_prompt_frame { initState with promptText := "   " } (by decide)).1

/-! ### Claim C10 -/

/-- Claim C10: a chat submission with a non-empty trimmed input but no
chat session is a complete no-op — the state (transcript, input, lifecycle
state and everything else) is returned unchanged. -/
theorem claim10_no_session_noop (s : AppState) (hne : jsTrim s.chatInput ≠ "")
    (hsess : s.chatSession = none) :
    handleChatSubmit s = s := by
  unfold handleChatSubmit
  rw [if_neg hne]
  simp [hsess]

/-- Witness for claim C10: a non-empty input while `chatRef.current` is
null. -/
theorem claim10_no_session_noop_witness :
    handleChatSubmit { initState with chatInput := "q" } = { initState with chatInput := "q" } :=
  claim10_no_session_noop { initState with chatInput := "q" } (by decide) rfl

end ConceptAnimator
